import Mathlib

/-!
Verification of the response-decoding and pagination engine of the
`tinystep` client library (a typed client for a smallstep certificate
authority).  The development shallowly embeds the three core pieces of
`src/types/custom_de.rs` and `src/types/http_responses.rs`:

* the Golang-style duration literal parser `from_golang_duration` and its
  error-swallowing companion `from_golang_duration_opt`;
* the tag-dispatching provisioner list decoder `dynamic_provisioner_list`;
* the synchronous paginator `StepProvisionersPaginator::next` and the
  asynchronous paginator `StepProvisionersAsyncPaginator::poll_next`.

Modelling conventions:

* JSON values are the inductive `Json`; `serde_json` numbers carry their
  i64 / u64 / f64 flavour.  `f64` values and Rust float arithmetic are
  modelled exactly over `ℚ` (every numeric literal appearing in the claims
  is exactly representable, and all roundings land far from ties, so the
  rational model agrees with IEEE double arithmetic on every input used).
* A Rust panic is modelled as `none` in an `Option`-wrapped result; a
  recoverable `serde` error is `Except.error`.
* `chrono::Duration` is an `Int` count of nanoseconds, bounded by
  `i64::MIN/MAX` milliseconds as in chrono 0.4; `Duration::seconds` panics
  (returns `none`) outside that range, `checked_add` yields `none` which
  the source converts into an "overflow time!" error.
* The external page fetchers `provisioners_raw` / `provisioners_raw_async`
  are parameters (`fetch` / `afetch`); every fetch that the paginator
  issues is recorded in a returned log of cursors so fetch counts can be
  stated.  Async futures are `MockFuture`: a countdown of pending polls,
  a result, and a `consumed` flag (polling an already completed `async fn`
  future panics in Rust, hence `none`).
-/

deriving instance DecidableEq for Except

namespace Tinystep

/-! ## JSON model and serde error model -/

/-- A `serde_json::Value`.  Numbers record their `i64` / `u64` / `f64`
flavour; `f64` payloads are modelled as rationals. -/
inductive Json where
  | null : Json
  | bool (b : Bool) : Json
  | numI (n : Int) : Json
  | numU (n : Nat) : Json
  | numF (q : ℚ) : Json
  | str (s : String) : Json
  | arr (items : List Json) : Json
  | obj (fields : List (String × Json)) : Json

/-- `serde::de::Unexpected`, restricted to the constructors the source
uses. -/
inductive Unexpected where
  | other (s : String) : Unexpected
  | boolU (b : Bool) : Unexpected
  | signed (n : Int) : Unexpected
  | unsigned (n : Nat) : Unexpected
  | float (q : ℚ) : Unexpected
  | map : Unexpected
  | strU (s : String) : Unexpected
  | unit : Unexpected
deriving DecidableEq

/-- The `serde` deserialization errors produced by `custom_de.rs`:
`invalid_type`, `unknown_variant` and `custom`. -/
inductive DeErr where
  | invalidType (found : Unexpected) (expected : String) : DeErr
  | unknownVariant (variant : String) (expected : List String) : DeErr
  | custom (msg : String) : DeErr
deriving DecidableEq

/-- `find_unknown_type` from `custom_de.rs`: classify a JSON value for an
`invalid_type` error.  The source's if-chain (array, bool, i64, u64, f64,
object, string, null) is a total case split on our `Json`. -/
def find_unknown_type : Json → Unexpected
  | .arr _ => .other "array"
  | .bool b => .boolU b
  | .numI n => .signed n
  | .numU n => .unsigned n
  | .numF q => .float q
  | .obj _ => .map
  | .str s => .strU s
  | .null => .unit

/-- `Value::index` (`any["type"]`): field lookup on objects, `Null` on a
missing key or a non-object. -/
def Json.index (j : Json) (key : String) : Json :=
  match j with
  | .obj fields =>
    match fields.lookup key with
    | some v => v
    | none => .null
  | _ => .null

/-- `Value::is_object`. -/
def Json.isObject : Json → Bool
  | .obj _ => true
  | _ => false

/-! ## Duration model (chrono 0.4 `Duration`) -/

def i64Max : Int := 9223372036854775807

def i64Min : Int := -9223372036854775808

/-- chrono 0.4 bounds: a `Duration` holds at most `i64::MAX` milliseconds
(here in nanoseconds). -/
def durMaxNanos : Int := i64Max * 1000000

def durMinNanos : Int := i64Min * 1000000

/-- `Duration::seconds`: panics (`none`) when out of bounds. -/
def Duration.seconds (s : Int) : Option Int :=
  if durMinNanos ≤ s * 1000000000 ∧ s * 1000000000 ≤ durMaxNanos then
    some (s * 1000000000)
  else
    none

/-- `Duration::milliseconds`: total, any `i64` count is in bounds. -/
def Duration.milliseconds (ms : Int) : Int := ms * 1000000

/-- `Duration::microseconds`. -/
def Duration.microseconds (us : Int) : Int := us * 1000

/-- `Duration::nanoseconds`. -/
def Duration.nanoseconds (ns : Int) : Int := ns

/-- `Duration::checked_add`: `none` when the sum leaves the representable
range (the source maps this to the "overflow time!" error). -/
def checked_add (a b : Int) : Option Int :=
  if durMinNanos ≤ a + b ∧ a + b ≤ durMaxNanos then some (a + b) else none

/-- Rust `as i64` on a float: saturating conversion. -/
def asI64 (n : Int) : Int := max i64Min (min i64Max n)

/-- `(num / den : f64).round()` for non-negative exact operands: round
half away from zero, which for non-negative values is round half up,
i.e. `⌊num/den + 1/2⌋`. -/
def roundHalfUp (num den : Nat) : Nat := (2 * num + den) / (2 * den)

/-! ## The duration string parser

The numerals the accumulator collects are non-negative decimal literals;
their `f64` value is modelled exactly as a scaled decimal `n / 10 ^ k`
(every literal in the claims is exactly representable and every rounding
lands far from a tie, so this agrees with IEEE double arithmetic on all
inputs used). -/

/-- Digits of a numeral as a natural number. -/
def digitsToNat (ds : List Char) : Nat :=
  ds.foldl (fun a c => a * 10 + (c.toNat - 48)) 0

/-- Rust `str::parse::<f64>` restricted to the strings the accumulator can
contain (characters that pass the source's digit test).  Within that
alphabet Rust accepts exactly the strings with at least one ASCII digit,
no other characters than digits and dots, and at most one dot.  The result
`(n, k)` denotes the exact value `n / 10 ^ k`. -/
def parseF64 (cs : List Char) : Option (Nat × Nat) :=
  if (∀ c ∈ cs, c = '.' ∨ c.isDigit = true) ∧ (∃ c ∈ cs, c.isDigit = true) ∧
      cs.count '.' ≤ 1 then
    some (digitsToNat (cs.filter (fun c => c != '.')),
      ((cs.dropWhile (fun c => c != '.')).drop 1).length)
  else
    none

/-- Model of `dur_as_str.get(i..i+1)` where `i` is used as a *byte*
index: `some c` when byte `i` starts a one-byte character `c`; `none`
(which the source `unwrap()`s, i.e. panics) when `i` is not a character
boundary, when the character starting there is multi-byte, or when the
range leaves the string. -/
def byteGet1 : List Char → Nat → Option Char
  | [], _ => none
  | c :: rest, i =>
    if i = 0 then
      if c.utf8Size = 1 then some c else none
    else if i < c.utf8Size then
      none
    else
      byteGet1 rest (i - c.utf8Size)

/-- Byte length of a string given as characters (`str::len`). -/
def byteLenChars (cs : List Char) : Nat := (cs.map Char.utf8Size).sum

def invalidMsg (tmp : List Char) : DeErr :=
  .custom ("Invalid time duration: `" ++ String.mk tmp ++ "`")

def unknownUnitErr : DeErr :=
  .custom "Unknown time duration, isn't `h`, `m`, `s`, `us`, `ms`, `ns`"

def overflowErr : DeErr := .custom "overflow time!"

/-- The character loop of `from_golang_duration`.  `full` and `bl` are the
whole stripped input and its byte length (the source looks ahead with
`idx + 1 < dur_as_str.len()` and `dur_as_str.get(idx+1..idx+2)` where
`idx` is the *character* index from `enumerate()`, so the lookahead mixes
character and byte positions exactly as modelled by `byteGet1`).  The
digit test reproduces `car as u8` truncation (`c.toNat % 256`).  A `none`
result is a Rust panic; note that a trailing numeral with no unit is left
in `tmp` and silently discarded by the `[]` case. -/
def durLoop (full : List Char) (bl : Nat) :
    List Char → Nat → Bool → List Char → Int → Option (Except DeErr Int)
  | [], _, _, _, dur => some (.ok dur)
  | c :: rest, idx, skip, tmp, dur =>
    if skip then
      durLoop full bl rest (idx + 1) false tmp dur
    else if c = '.' ∨ (48 ≤ c.toNat % 256 ∧ c.toNat % 256 ≤ 57) then
      durLoop full bl rest (idx + 1) false (tmp ++ [c]) dur
    else
      match c with
      | 'h' =>
        match parseF64 tmp with
        | none => some (.error (invalidMsg tmp))
        | some f =>
          match Duration.seconds (asI64 (roundHalfUp (f.1 * 60 * 60) (10 ^ f.2))) with
          | none => none
          | some d1 =>
            match checked_add dur d1 with
            | none => some (.error overflowErr)
            | some dur2 => durLoop full bl rest (idx + 1) false [] dur2
      | 'm' =>
        if idx + 1 < bl then
          match byteGet1 full (idx + 1) with
          | none => none
          | some c2 =>
            if c2 = 's' then
              match parseF64 tmp with
              | none => some (.error (invalidMsg tmp))
              | some f =>
                match checked_add dur (Duration.milliseconds (asI64 (roundHalfUp f.1 (10 ^ f.2)))) with
                | none => some (.error overflowErr)
                | some dur2 => durLoop full bl rest (idx + 1) true [] dur2
            else
              match parseF64 tmp with
              | none => some (.error (invalidMsg tmp))
              | some f =>
                match Duration.seconds (asI64 (roundHalfUp (f.1 * 60) (10 ^ f.2))) with
                | none => none
                | some d1 =>
                  match checked_add dur d1 with
                  | none => some (.error overflowErr)
                  | some dur2 => durLoop full bl rest (idx + 1) false [] dur2
        else
          match parseF64 tmp with
          | none => some (.error (invalidMsg tmp))
          | some f =>
            match Duration.seconds (asI64 (roundHalfUp (f.1 * 60) (10 ^ f.2))) with
            | none => none
            | some d1 =>
              match checked_add dur d1 with
              | none => some (.error overflowErr)
              | some dur2 => durLoop full bl rest (idx + 1) false [] dur2
      | 'u' | 'µ' | 'μ' =>
        if idx + 1 < bl then
          match byteGet1 full (idx + 1) with
          | none => none
          | some c2 =>
            if c2 = 's' then
              match parseF64 tmp with
              | none => some (.error (invalidMsg tmp))
              | some f =>
                match checked_add dur (Duration.microseconds (asI64 (roundHalfUp f.1 (10 ^ f.2)))) with
                | none => some (.error overflowErr)
                | some dur2 => durLoop full bl rest (idx + 1) true [] dur2
            else
              some (.error unknownUnitErr)
        else
          some (.error unknownUnitErr)
      | 'n' =>
        if idx + 1 < bl then
          match byteGet1 full (idx + 1) with
          | none => none
          | some c2 =>
            if c2 = 's' then
              match parseF64 tmp with
              | none => some (.error (invalidMsg tmp))
              | some f =>
                match checked_add dur (Duration.nanoseconds (asI64 (roundHalfUp f.1 (10 ^ f.2)))) with
                | none => some (.error overflowErr)
                | some dur2 => durLoop full bl rest (idx + 1) true [] dur2
            else
              some (.error unknownUnitErr)
        else
          some (.error unknownUnitErr)
      | 's' =>
        match parseF64 tmp with
        | none => some (.error (invalidMsg tmp))
        | some f =>
          match Duration.seconds (asI64 (roundHalfUp f.1 (10 ^ f.2))) with
          | none => none
          | some d1 =>
            match checked_add dur d1 with
            | none => some (.error overflowErr)
            | some dur2 => durLoop full bl rest (idx + 1) false [] dur2
      | _ => some (.error unknownUnitErr)

/-- Body of `from_golang_duration` on the text of a JSON string value:
record whether the text starts with `-` (`starts_with('-')`), strip all
leading `-` then all leading `+` (`trim_start_matches`), run the character
loop, and negate the accumulated total once at the end.  `none` is a Rust
panic. -/
def goDurationCore (cs : List Char) : Option (Except DeErr Int) :=
  let should_negate : Bool := cs.head? == some '-'
  let dur_as_str := (cs.dropWhile (fun c => c == '-')).dropWhile (fun c => c == '+')
  match durLoop dur_as_str (byteLenChars dur_as_str) dur_as_str 0 false [] 0 with
  | none => none
  | some (.error e) => some (.error e)
  | some (.ok d) => some (.ok (if should_negate then -d else d))

/-- The strict duration parser on a string. -/
def goDuration (s : String) : Option (Except DeErr Int) :=
  goDurationCore s.data

/-- `from_golang_duration` on an already-deserialized JSON value: a
non-string is an `invalid_type` error; a string is parsed by the core.
(The source re-serializes the value with `to_string()` and trims the
surrounding quote characters; for strings free of characters that
`serde_json` escapes — all inputs relevant here — that round-trip is the
identity on the content, which the model applies the parser to
directly.) -/
def from_golang_duration (j : Json) : Option (Except DeErr Int) :=
  match j with
  | .str s => goDuration s
  | other => some (.error (.invalidType (find_unknown_type other) "A string duration"))

/-- `from_golang_duration_opt`: `Ok` becomes `Ok(Some)`, any error becomes
`Ok(None)`; a panic (`none`) propagates. -/
def from_golang_duration_opt (j : Json) : Option (Except DeErr (Option Int)) :=
  match from_golang_duration j with
  | some (.ok d) => some (.ok (some d))
  | some (.error _) => some (.ok none)
  | none => none

/-! ## The provisioner variant decoder (`dynamic_provisioner_list`) -/

/-- `StepProvisionerType` from `provisioners/mod.rs`. -/
inductive StepProvisionerType where
  | JsonWebKey
  | OpenIDConnect
  | GoogleCloudPlatform
  | AmazonWebServices
  | Azure
  | Acme
  | X509CertBundle
  | KubernetesServiceAccount
  | SshKeypair
deriving DecidableEq

/-- `StepProvisionerType::from_str`; the error is the formatted
`color_eyre` report message (with `{:?}` quoting of the tag). -/
def StepProvisionerType.from_str (s : String) : Except String StepProvisionerType :=
  match s with
  | "JWK" => .ok .JsonWebKey
  | "OIDC" => .ok .OpenIDConnect
  | "GCP" => .ok .GoogleCloudPlatform
  | "AWS" => .ok .AmazonWebServices
  | "Azure" => .ok .Azure
  | "ACME" => .ok .Acme
  | "X5C" => .ok .X509CertBundle
  | "K8sSA" => .ok .KubernetesServiceAccount
  | "SSHPOP" => .ok .SshKeypair
  | _ => .error ("Failed to find provisioner type: \"" ++ s ++ "\"")

/-- The nine legal tags, in the order the source lists them in its
`unknown_variant` call. -/
def legalTags : List String :=
  ["JWK", "OIDC", "GCP", "AWS", "Azure", "ACME", "X5C", "K8sSA", "SSHPOP"]

/-- The nine per-variant payload types (`StepJWKProvisioner` and friends
are flat serde structs with no decision logic; the claims quantify over
their decoders, so the shapes are abstract type parameters). -/
structure ProvShapes where
  jwk : Type
  oidc : Type
  gcp : Type
  aws : Type
  azure : Type
  acme : Type
  x5c : Type
  k8ssa : Type
  sshpop : Type

/-- `StepProvisioner`: the tagged union over the nine shapes, constructors
in source order. -/
inductive StepProvisioner (P : ProvShapes) where
  | OpenIDConnectProvisioner (v : P.oidc)
  | JsonWebKeyProvisioner (v : P.jwk)
  | GoogleCloudPlatformProvisioner (v : P.gcp)
  | AmazonWebServicesProvisioner (v : P.aws)
  | AzureProvisioner (v : P.azure)
  | AcmeProvisioner (v : P.acme)
  | X509CertBundleProvisioner (v : P.x5c)
  | KubernetesServiceAccountProvisioner (v : P.k8ssa)
  | SshKeypairProvisioner (v : P.sshpop)

/-- The nine `serde_json::from_value::<Shape>` calls, abstracted: each
takes the whole element object and either produces the shape or a
`serde_json` error message (which the source wraps in `DeError::custom`).-/
structure ShapeDecoders (P : ProvShapes) where
  jwk : Json → Except String P.jwk
  oidc : Json → Except String P.oidc
  gcp : Json → Except String P.gcp
  aws : Json → Except String P.aws
  azure : Json → Except String P.azure
  acme : Json → Except String P.acme
  x5c : Json → Except String P.x5c
  k8ssa : Json → Except String P.k8ssa
  sshpop : Json → Except String P.sshpop

/-- One iteration of the `dynamic_provisioner_list` loop: object check,
string `type` check, tag resolution, then the nine-way shape dispatch. -/
def provisioner_item {P : ProvShapes} (d : ShapeDecoders P) (any : Json) :
    Except DeErr (StepProvisioner P) :=
  if any.isObject = true then
    match Json.index any "type" with
    | .str type_str =>
      match StepProvisionerType.from_str type_str with
      | .error _ => .error (.unknownVariant type_str legalTags)
      | .ok t =>
        match t with
        | .JsonWebKey =>
          match d.jwk any with
          | .error err_case => .error (.custom err_case)
          | .ok v => .ok (.JsonWebKeyProvisioner v)
        | .OpenIDConnect =>
          match d.oidc any with
          | .error err_case => .error (.custom err_case)
          | .ok v => .ok (.OpenIDConnectProvisioner v)
        | .GoogleCloudPlatform =>
          match d.gcp any with
          | .error err_case => .error (.custom err_case)
          | .ok v => .ok (.GoogleCloudPlatformProvisioner v)
        | .AmazonWebServices =>
          match d.aws any with
          | .error err_case => .error (.custom err_case)
          | .ok v => .ok (.AmazonWebServicesProvisioner v)
        | .Azure =>
          match d.azure any with
          | .error err_case => .error (.custom err_case)
          | .ok v => .ok (.AzureProvisioner v)
        | .Acme =>
          match d.acme any with
          | .error err_case => .error (.custom err_case)
          | .ok v => .ok (.AcmeProvisioner v)
        | .X509CertBundle =>
          match d.x5c any with
          | .error err_case => .error (.custom err_case)
          | .ok v => .ok (.X509CertBundleProvisioner v)
        | .KubernetesServiceAccount =>
          match d.k8ssa any with
          | .error err_case => .error (.custom err_case)
          | .ok v => .ok (.KubernetesServiceAccountProvisioner v)
        | .SshKeypair =>
          match d.sshpop any with
          | .error err_case => .error (.custom err_case)
          | .ok v => .ok (.SshKeypairProvisioner v)
    | other =>
      .error (.invalidType (find_unknown_type other)
        "A string `type` that identifies this provisioner")
  else
    .error (.invalidType (find_unknown_type any) "a provisioner object")

/-- The accumulation loop: the first failing element aborts the whole
decode (the partially built vector is discarded). -/
def provisioner_list_loop {P : ProvShapes} (d : ShapeDecoders P) :
    List Json → Except DeErr (List (StepProvisioner P))
  | [] => .ok []
  | any :: rest =>
    match provisioner_item d any with
    | .error e => .error e
    | .ok v =>
      match provisioner_list_loop d rest with
      | .error e => .error e
      | .ok vs => .ok (v :: vs)

/-- `dynamic_provisioner_list`: a non-array input is an `invalid_type`
error; an array is decoded element by element. -/
def dynamic_provisioner_list {P : ProvShapes} (d : ShapeDecoders P)
    (as_any : Json) : Except DeErr (List (StepProvisioner P)) :=
  match as_any with
  | .arr items => provisioner_list_loop d items
  | other =>
    .error (.invalidType (find_unknown_type other) "an array of provisioner objects")

/-! ## The synchronous paginator (`StepProvisionersPaginator`) -/

/-- `StepProvisionersResponseRaw`: one decoded page.  The item type is a
parameter (`StepProvisioner` in the source); `next_cursor` is the empty
string when there is no further page. -/
structure StepProvisionersResponseRaw (α : Type) where
  provisioners : List α
  next_cursor : String
deriving DecidableEq

/-- The mutable state of `StepProvisionersPaginator` (the borrowed
`tclient` is captured by the `fetch` parameter of `next`). -/
structure StepProvisionersPaginator (α : Type) where
  cnt : Nat
  fetched_last : Option (StepProvisionersResponseRaw α)
deriving DecidableEq

/-- The part of `next` from the `let mut page = ...` re-borrow on: `page`
is the currently held page, `log` the cursors fetched so far in this call.
Mirrors the source exactly — in particular `cnt` is *never incremented*
anywhere in the source, a fact surfaced by the theorems below. -/
def nextHeld {α ε : Type}
    (fetch : Option String → Except ε (StepProvisionersResponseRaw α))
    (s : StepProvisionersPaginator α) (page : StepProvisionersResponseRaw α)
    (log : List (Option String)) :
    StepProvisionersPaginator α × Option (Except ε α) × List (Option String) :=
  if page.provisioners.isEmpty then
    (s, none, log)
  else if h : page.provisioners.length ≤ s.cnt then
    if page.next_cursor = "" then
      (s, none, log)
    else
      match fetch (some page.next_cursor) with
      | .error e => (s, some (.error e), log ++ [some page.next_cursor])
      | .ok pg2 =>
        match pg2.provisioners with
        | [] => (⟨0, some pg2⟩, none, log ++ [some page.next_cursor])
        | x :: _ => (⟨0, some pg2⟩, some (.ok x), log ++ [some page.next_cursor])
  else
    (s, some (.ok (page.provisioners.get ⟨s.cnt, Nat.lt_of_not_le h⟩)), log)

/-- `StepProvisionersPaginator::next` (`Iterator::next`).  Besides the
Rust return value (`Option<Result<Item>>`) the model returns the updated
state and the list of cursors passed to `provisioners_raw` during this
call, so fetch counts are observable. -/
def StepProvisionersPaginator.next {α ε : Type}
    (fetch : Option String → Except ε (StepProvisionersResponseRaw α))
    (s : StepProvisionersPaginator α) :
    StepProvisionersPaginator α × Option (Except ε α) × List (Option String) :=
  match s.fetched_last with
  | none =>
    match fetch none with
    | .error e => (s, some (.error e), [none])
    | .ok pg => nextHeld fetch ⟨s.cnt, some pg⟩ pg [none]
  | some pg => nextHeld fetch s pg []

/-- Consume `n` items from the paginator: the list of the `n` return
values, the concatenated fetch log, and the final state. -/
def StepProvisionersPaginator.run {α ε : Type}
    (fetch : Option String → Except ε (StepProvisionersResponseRaw α)) :
    Nat → StepProvisionersPaginator α →
    List (Option (Except ε α)) × List (Option String) × StepProvisionersPaginator α
  | 0, s => ([], [], s)
  | n + 1, s =>
    let r := StepProvisionersPaginator.next fetch s
    let rest := StepProvisionersPaginator.run fetch n r.1
    (r.2.1 :: rest.1, r.2.2 ++ rest.2.1, rest.2.2)

/-! ## The asynchronous paginator (`StepProvisionersAsyncPaginator`) -/

/-- A boxed page-fetch future: it reports `Pending` for `pollsLeft` more
polls, then `Ready result`.  `consumed` records that `Ready` was already
returned — polling a completed `async fn` future again panics in Rust. -/
structure MockFuture (α ε : Type) where
  pollsLeft : Nat
  result : Except ε (StepProvisionersResponseRaw α)
  consumed : Bool
deriving DecidableEq

/-- `futures::task::Poll`. -/
inductive Poll (α : Type) where
  | ready (val : α)
  | pending
deriving DecidableEq

/-- `poll_unpin` on a `MockFuture`; `none` is the panic on resuming a
completed future. -/
def pollFuture {α ε : Type} (f : MockFuture α ε) :
    Option (Poll (Except ε (StepProvisionersResponseRaw α)) × MockFuture α ε) :=
  if f.consumed then
    none
  else
    match f.pollsLeft with
    | 0 => some (.ready f.result, { f with consumed := true })
    | k + 1 => some (.pending, { f with pollsLeft := k })

/-- The state of `StepProvisionersAsyncPaginator` (again the client handle
lives in the `afetch` parameter). -/
structure StepProvisionersAsyncPaginator (α ε : Type) where
  cnt : Nat
  fetched_last : Option (StepProvisionersResponseRaw α)
  current_pending_fetch : Option (MockFuture α ε)
deriving DecidableEq

/-- Lines 197–217 of `poll_next`: `this.fetched_last.as_ref().unwrap()`
(`none` = panic, unreachable from reachable states) and the item /
next-page logic.  As in the sync paginator, `cnt` is never incremented. -/
def pollHeld {α ε : Type} (afetch : Option String → MockFuture α ε)
    (s : StepProvisionersAsyncPaginator α ε) (log : List (Option String)) :
    Option (StepProvisionersAsyncPaginator α ε ×
      Poll (Option (Except ε α)) × List (Option String)) :=
  match s.fetched_last with
  | none => none
  | some page =>
    if page.provisioners.isEmpty then
      some (s, .ready none, log)
    else if h : page.provisioners.length ≤ s.cnt then
      if page.next_cursor = "" then
        some (s, .ready none, log)
      else
        let fut := afetch (some page.next_cursor)
        some ({ s with cnt := 0, current_pending_fetch := some fut },
          .pending, log ++ [some page.next_cursor])
    else
      some (s, .ready (some (.ok (page.provisioners.get ⟨s.cnt, Nat.lt_of_not_le h⟩))),
        log)

/-- Lines 180–195 of `poll_next`: poll the pending fetch.  `Pending`
suspends; an error is returned as an item *without clearing the slot*
(the early `return` skips `current_pending_fetch = None`); a success
stores the page, clears the slot and falls through to the held-page
logic. -/
def pollWithPending {α ε : Type} (afetch : Option String → MockFuture α ε)
    (s : StepProvisionersAsyncPaginator α ε) (fut : MockFuture α ε)
    (log : List (Option String)) :
    Option (StepProvisionersAsyncPaginator α ε ×
      Poll (Option (Except ε α)) × List (Option String)) :=
  match pollFuture fut with
  | none => none
  | some (.pending, fut2) =>
    some ({ s with current_pending_fetch := some fut2 }, .pending, log)
  | some (.ready (.error e), fut2) =>
    some ({ s with current_pending_fetch := some fut2 }, .ready (some (.error e)), log)
  | some (.ready (.ok pg), _) =>
    pollHeld afetch { s with fetched_last := some pg, current_pending_fetch := none } log

/-- `StepProvisionersAsyncPaginator::poll_next` (`Stream::poll_next`).
If nothing is pending and no page is held, the first fetch is started and
— exactly as in the source — immediately polled in the same step.  The
returned log lists the cursors for which `provisioners_raw_async` was
invoked during this step; `none` is a panic. -/
def StepProvisionersAsyncPaginator.poll_next {α ε : Type}
    (afetch : Option String → MockFuture α ε)
    (s : StepProvisionersAsyncPaginator α ε) :
    Option (StepProvisionersAsyncPaginator α ε ×
      Poll (Option (Except ε α)) × List (Option String)) :=
  if s.current_pending_fetch.isNone && s.fetched_last.isNone then
    pollWithPending afetch
      { s with current_pending_fetch := some (afetch none) } (afetch none) [none]
  else
    match s.current_pending_fetch with
    | some fut => pollWithPending afetch s fut []
    | none => pollHeld afetch s []

/-! ## Concrete fixtures for the theorems below -/

/-- Page 1 of the spec's two-page scenario: 3 items, cursor `"c1"`. -/
def twoPagePage1 : StepProvisionersResponseRaw Nat := ⟨[0, 1, 2], "c1"⟩

/-- Page 2 of the spec's two-page scenario: 2 items, empty cursor. -/
def twoPagePage2 : StepProvisionersResponseRaw Nat := ⟨[3, 4], ""⟩

/-- The two-page fetcher of the spec's pagination test scenario. -/
def twoPageFetch : Option String → Except String (StepProvisionersResponseRaw Nat)
  | none => .ok twoPagePage1
  | some "c1" => .ok twoPagePage2
  | some _ => .error "unexpected cursor"

/-- A transport whose every fetch fails. -/
def errFetch : Option String → Except String (StepProvisionersResponseRaw Nat) :=
  fun _ => .error "boom"

/-- Async transport whose fetches resolve immediately with an error. -/
def errAFetch : Option String → MockFuture Nat String :=
  fun _ => ⟨0, .error "boom", false⟩

/-- A fetcher with an empty page at `"c1"` that still carries cursor
`"c2"`, and a further non-empty page at `"c2"`. -/
def c3Fetch : Option String → Except String (StepProvisionersResponseRaw Nat)
  | some "c1" => .ok ⟨[], "c2"⟩
  | some "c2" => .ok ⟨[99], ""⟩
  | _ => .error "unexpected cursor"

/-- Async transport whose fetches resolve on the very first poll with a
one-item final page. -/
def readyAFetch : Option String → MockFuture Nat String :=
  fun _ => ⟨0, .ok ⟨[5], ""⟩, false⟩

/-- Async transport whose fetches stay pending for five polls. -/
def pendAFetch : Option String → MockFuture Nat String :=
  fun _ => ⟨5, .ok ⟨[], ""⟩, false⟩

/-- Trivial payload shapes for instantiating the decoder theorems. -/
def unitShapes : ProvShapes := ⟨Unit, Unit, Unit, Unit, Unit, Unit, Unit, Unit, Unit⟩

/-- Shape decoders that always succeed on the trivial shapes. -/
def unitDecoders : ShapeDecoders unitShapes :=
  ⟨fun _ => .ok (), fun _ => .ok (), fun _ => .ok (), fun _ => .ok (),
    fun _ => .ok (), fun _ => .ok (), fun _ => .ok (), fun _ => .ok (),
    fun _ => .ok ()⟩

/-- An element with the known tag `"JWK"`. -/
def jwkObj : Json := .obj [("type", .str "JWK")]

/-- An element with the known tag `"ACME"`. -/
def acmeObj : Json := .obj [("type", .str "ACME")]

/-- An element whose tag `"FOO"` is outside the closed tag set. -/
def badObj : Json := .obj [("type", .str "FOO")]

/-! ## Helper lemmas -/

/-- On a run of ASCII digits the character loop only accumulates the
numeral and never touches a unit arm, so the duration total is returned
unchanged (the trailing numeral is silently discarded). -/
lemma durLoop_digits (full : List Char) (bl : Nat) :
    ∀ (cs : List Char) (idx : Nat) (tmp : List Char) (d : Int),
      (∀ c ∈ cs, 48 ≤ c.toNat ∧ c.toNat ≤ 57) →
      durLoop full bl cs idx false tmp d = some (.ok d) := by
  intro cs
  induction cs with
  | nil => intro idx tmp d _; rfl
  | cons c rest ih =>
    intro idx tmp d h
    obtain ⟨h1, h2⟩ := h c (List.mem_cons_self c rest)
    have hrest : ∀ c ∈ rest, 48 ≤ c.toNat ∧ c.toNat ≤ 57 :=
      fun x hx => h x (List.mem_cons_of_mem c hx)
    simp only [durLoop, Bool.false_eq_true, if_false]
    rw [if_pos (Or.inr ⟨by omega, by omega⟩)]
    exact ih (idx + 1) (tmp ++ [c]) d hrest

/-- On a list of elements that all decode, the accumulation loop succeeds
with the elementwise results, preserving length and order. -/
lemma provisioner_list_loop_ok {P : ProvShapes} (d : ShapeDecoders P) :
    ∀ xs : List Json, (∀ x ∈ xs, ∃ v, provisioner_item d x = .ok v) →
      ∃ ys, provisioner_list_loop d xs = .ok ys ∧ ys.length = xs.length ∧
        ∀ (i : Nat) (h1 : i < xs.length) (h2 : i < ys.length),
          provisioner_item d (xs.get ⟨i, h1⟩) = .ok (ys.get ⟨i, h2⟩) := by
  intro xs
  induction xs with
  | nil =>
    intro _
    exact ⟨[], rfl, rfl, fun i h1 _ => absurd h1 (Nat.not_lt_zero i)⟩
  | cons x rest ih =>
    intro h
    obtain ⟨v, hv⟩ := h x (List.mem_cons_self x rest)
    obtain ⟨ys, hys, hlen, hget⟩ := ih (fun y hy => h y (List.mem_cons_of_mem x hy))
    refine ⟨v :: ys, ?_, by simp [hlen], ?_⟩
    · simp only [provisioner_list_loop, hv, hys]
    · intro i h1 h2
      cases i with
      | zero => simpa using hv
      | succ n =>
        have hn1 : n < rest.length := by simpa using h1
        have hn2 : n < ys.length := by simpa using h2
        simpa using hget n hn1 hn2

/-- An element that is an object with a string tag outside the closed set
decodes to the `unknown_variant` error listing the nine legal tags. -/
lemma provisioner_item_unknown {P : ProvShapes} (d : ShapeDecoders P)
    (fs : List (String × Json)) (t : String)
    (htag : Json.index (.obj fs) "type" = .str t)
    (hunk : ∃ e, StepProvisionerType.from_str t = .error e) :
    provisioner_item d (.obj fs) = .error (.unknownVariant t legalTags) := by
  obtain ⟨e, he⟩ := hunk
  simp only [provisioner_item, Json.isObject, if_pos]
  rw [htag]
  simp only [he]

/-- The loop aborts with the `unknown_variant` error at the first element
carrying an unknown tag, discarding every earlier success. -/
lemma provisioner_list_loop_unknown {P : ProvShapes} (d : ShapeDecoders P)
    (fs : List (String × Json)) (t : String)
    (htag : Json.index (.obj fs) "type" = .str t)
    (hunk : ∃ e, StepProvisionerType.from_str t = .error e) :
    ∀ pre rest : List Json, (∀ x ∈ pre, ∃ v, provisioner_item d x = .ok v) →
      provisioner_list_loop d (pre ++ Json.obj fs :: rest) =
        .error (.unknownVariant t legalTags) := by
  intro pre
  induction pre with
  | nil =>
    intro rest _
    simp only [List.nil_append, provisioner_list_loop,
      provisioner_item_unknown d fs t htag hunk]
  | cons p pre ih =>
    intro rest h
    obtain ⟨v, hv⟩ := h p (List.mem_cons_self p pre)
    have hrest := ih rest (fun y hy => h y (List.mem_cons_of_mem p hy))
    show provisioner_list_loop d (p :: (pre ++ Json.obj fs :: rest)) =
      .error (.unknownVariant t legalTags)
    simp only [provisioner_list_loop, hv, hrest]

/-! ## Claim theorems -/

/-- C1: the claim says `next()` returns `items[position]` and *increments
the position*, so that the two-page scenario (page 1 = 3 items, cursor
`"c1"`; page 2 = 2 items, empty cursor) yields exactly 5 items with
exactly 2 fetches and then ends.  The source never increments `cnt`:
six consecutive `next()` calls each return item `0` of page 1, a single
fetch (cursor `none`) is ever issued, page 2 is never requested, and the
sequence never signals end-of-sequence. -/
theorem sync_paginator_never_advances :
    StepProvisionersPaginator.run twoPageFetch 6 ⟨0, none⟩ =
      (List.replicate 6 (some (.ok 0)), [none], ⟨0, some twoPagePage1⟩) := by
  decide

/-- C2 counterexample: after a failed fetch neither paginator becomes
terminal.  The sync paginator, run twice against an always-failing
transport, yields the error item *twice* and issues *two* fetches (the
claim demands one error item, then end-of-sequence with zero further
fetches).  The async paginator yields the error but leaves the completed
future in its pending slot, and the very next poll re-polls that
completed future — a panic (`none`), not an end-of-sequence signal. -/
theorem fetch_error_not_terminal_cex :
    StepProvisionersPaginator.run errFetch 2 ⟨0, none⟩ =
      ([some (.error "boom"), some (.error "boom")], [none, none], ⟨0, none⟩) ∧
    StepProvisionersAsyncPaginator.poll_next errAFetch ⟨0, none, none⟩ =
      some (⟨0, none, some ⟨0, .error "boom", true⟩⟩,
        .ready (some (.error "boom")), [none]) ∧
    StepProvisionersAsyncPaginator.poll_next errAFetch
      ⟨0, none, some ⟨0, .error "boom", true⟩⟩ = none := by
  refine ⟨by decide, by decide, by decide⟩

/-- C2 (amended): on a fetch error the sync paginator returns the error
as an item with its state *unchanged* (no `Exhausted` transition exists),
so the next call fetches again; the async paginator returns the error
without clearing `current_pending_fetch`, so the next poll resumes the
already completed future, which panics. -/
theorem fetch_error_yields_and_leaves_state {α ε : Type}
    (fetch : Option String → Except ε (StepProvisionersResponseRaw α))
    (afetch : Option String → MockFuture α ε)
    (s : StepProvisionersPaginator α) (t : StepProvisionersAsyncPaginator α ε)
    (e : ε) (f : MockFuture α ε)
    (h1 : s.fetched_last = none) (h2 : fetch none = .error e)
    (h3 : t.current_pending_fetch = some f) (h4 : f.consumed = true) :
    StepProvisionersPaginator.next fetch s = (s, some (.error e), [none]) ∧
    StepProvisionersAsyncPaginator.poll_next afetch t = none := by
  constructor
  · simp only [StepProvisionersPaginator.next, h1, h2]
  · simp only [StepProvisionersAsyncPaginator.poll_next, h3, Option.isNone_some,
      Bool.false_and, Bool.false_eq_true, if_false, pollWithPending, pollFuture, h4,
      if_true]

/-- C2 witness: the amended statement at the concrete always-failing
transports. -/
theorem fetch_error_yields_and_leaves_state_witness :
    StepProvisionersPaginator.next errFetch ⟨0, none⟩ =
      (⟨0, none⟩, some (.error "boom"), [none]) ∧
    StepProvisionersAsyncPaginator.poll_next errAFetch
      ⟨0, none, some ⟨0, .error "boom", true⟩⟩ = none :=
  fetch_error_yields_and_leaves_state errFetch errAFetch ⟨0, none⟩
    ⟨0, none, some ⟨0, .error "boom", true⟩⟩ "boom" ⟨0, .error "boom", true⟩
    rfl rfl rfl rfl

/-- C3 counterexample: the advance logic is *not* retried against a newly
fetched page beyond a single emptiness check.  From a state holding an
exhausted one-item page with cursor `"c1"`, where `"c1"` yields an empty
page carrying cursor `"c2"` and `"c2"` yields a further item, `next()`
returns `none` (end-of-sequence) after fetching only `"c1"` — a spurious
end-of-sequence while further pages remain. -/
theorem empty_page_spurious_end_cex :
    StepProvisionersPaginator.next c3Fetch ⟨1, some ⟨[7], "c1"⟩⟩ =
      (⟨0, some ⟨[], "c2"⟩⟩, none, [some "c1"]) ∧
    c3Fetch (some "c2") = .ok ⟨[99], ""⟩ := by
  decide

/-- C3 (amended): when the held page is exhausted and carries a non-empty
cursor, `next()` fetches that cursor once, replaces the held page and
resets the position to 0; it then checks the new page's emptiness a
single time — an empty fetched page yields end-of-sequence even when its
own cursor is non-empty (no recursion through empty pages), otherwise the
new page's first item is returned. -/
theorem fetch_next_page_no_recursion {α ε : Type}
    (fetch : Option String → Except ε (StepProvisionersResponseRaw α))
    (s : StepProvisionersPaginator α) (pg pg2 : StepProvisionersResponseRaw α)
    (h1 : s.fetched_last = some pg) (h2 : pg.provisioners ≠ [])
    (h3 : pg.provisioners.length ≤ s.cnt) (h4 : pg.next_cursor ≠ "")
    (h5 : fetch (some pg.next_cursor) = .ok pg2) :
    StepProvisionersPaginator.next fetch s =
      (⟨0, some pg2⟩,
        (match pg2.provisioners with | [] => none | x :: _ => some (.ok x)),
        [some pg.next_cursor]) := by
  simp only [StepProvisionersPaginator.next, h1, nextHeld]
  rw [if_neg (by simpa [List.isEmpty_iff] using h2)]
  rw [dif_pos h3, if_neg h4, h5]
  cases hp : pg2.provisioners with
  | nil => simp [hp]
  | cons x tl => simp [hp]

/-- C3 witness: the amended statement at a concrete fetcher, landing on a
non-empty next page. -/
theorem fetch_next_page_no_recursion_witness :
    StepProvisionersPaginator.next c3Fetch ⟨1, some ⟨[7], "c2"⟩⟩ =
      (⟨0, some ⟨[99], ""⟩⟩, some (.ok 99), [some "c2"]) := by
  have h := fetch_next_page_no_recursion c3Fetch ⟨1, some ⟨[7], "c2"⟩⟩
    ⟨[7], "c2"⟩ ⟨[99], ""⟩ rfl (by decide) (by decide) (by decide) rfl
  simpa using h

/-- C4 counterexample: an input in which a numeral appears with no unit
following it does *not* produce a parse error: the digits-only literal
`"123"` and the empty input both parse successfully to the zero
duration. -/
theorem digits_without_unit_not_error_cex :
    from_golang_duration (.str "123") = some (.ok 0) ∧
    from_golang_duration (.str "") = some (.ok 0) := by
  decide

/-- C4 (amended): a trailing numeral with no unit is silently discarded;
in particular every input consisting solely of ASCII digits (codes
48–57), including the empty string, parses successfully to the zero
duration rather than a parse error. -/
theorem digits_only_parses_to_zero (s : String)
    (h : ∀ c ∈ s.data, 48 ≤ c.toNat ∧ c.toNat ≤ 57) :
    from_golang_duration (.str s) = some (.ok 0) := by
  show goDurationCore s.data = some (.ok 0)
  have hneg : (s.data.head? == some '-') = false := by
    cases hd : s.data with
    | nil => rfl
    | cons c rest =>
      obtain ⟨hc1, hc2⟩ := h c (by rw [hd]; exact List.mem_cons_self c rest)
      have : c ≠ '-' := by
        intro hEq
        rw [hEq] at hc1
        have hm : ('-').toNat = 45 := rfl
        omega
      simp [this]
  have hdrop : ((s.data.dropWhile (fun c => c == '-')).dropWhile (fun c => c == '+'))
      = s.data := by
    cases hd : s.data with
    | nil => rfl
    | cons c rest =>
      obtain ⟨hc1, hc2⟩ := h c (by rw [hd]; exact List.mem_cons_self c rest)
      have hm : c ≠ '-' := by
        intro hEq; rw [hEq] at hc1
        have : ('-').toNat = 45 := rfl
        omega
      have hp : c ≠ '+' := by
        intro hEq; rw [hEq] at hc1
        have : ('+').toNat = 43 := rfl
        omega
      simp [List.dropWhile_cons, hm, hp]
  simp only [goDurationCore, hdrop, hneg]
  rw [durLoop_digits s.data (byteLenChars s.data) s.data 0 [] 0 h]
  simp

/-- C4 witness: the amended statement at the digits-only literal
`"123"`. -/
theorem digits_only_parses_to_zero_witness :
    (∀ c ∈ "123".data, 48 ≤ c.toNat ∧ c.toNat ≤ 57) ∧
    from_golang_duration (.str "123") = some (.ok 0) :=
  ⟨by decide, digits_only_parses_to_zero "123" (by decide)⟩

/-- C5: the strict parser's lookahead slices `dur_as_str.get(idx+1..idx+2)`
with the *character* index `idx` from `enumerate()` used as a *byte*
index; after a two-byte `µ` (U+00B5) or `μ` (U+03BC) the position
`idx + 1` is not a character boundary, the slice is `None`, and the
`unwrap()` panics (modelled as `none`) instead of returning a value or an
error — so the parser is not total on `"1µs"`, `"300µs"`, `"1μs"`. -/
theorem micro_unit_byte_slice_panics :
    from_golang_duration (.str "1µs") = none ∧
    from_golang_duration (.str "300µs") = none ∧
    from_golang_duration (.str "1μs") = none := by
  decide

/-- C6: the worked examples of the spec hold exactly: `-1.5h` is −5400
seconds (the single leading sign negates the accumulated total once),
`2h45m` is 9900 seconds, `+300ms` is 300 milliseconds, and the fractional
literal `1.0006s` *rounds* to one whole second in the unit's base
resolution instead of truncating upward contributions away.  Durations
are in nanoseconds. -/
theorem duration_literal_examples :
    from_golang_duration (.str "-1.5h") = some (.ok (-5400 * 1000000000)) ∧
    from_golang_duration (.str "2h45m") = some (.ok (9900 * 1000000000)) ∧
    from_golang_duration (.str "+300ms") = some (.ok (300 * 1000000)) ∧
    from_golang_duration (.str "1.0006s") = some (.ok (1 * 1000000000)) := by
  decide

/-- C7: the optional parser returns the strict parser's success as
`Ok(Some)` and maps *every* strict-parser error to `Ok(None)`; it never
returns an error itself (a strict-parser panic propagates unchanged, which
is outside the error/value contract quantified here).  The malformed
literal `"7bogus"` is a strict-parse error and optional-parses to
`Ok(None)`. -/
theorem from_golang_duration_opt_total :
    (∀ j : Json, from_golang_duration_opt j =
      (from_golang_duration j).map (fun r =>
        match r with
        | .ok d => .ok (some d)
        | .error _ => .ok none)) ∧
    from_golang_duration (.str "7bogus") = some (.error unknownUnitErr) ∧
    from_golang_duration_opt (.str "7bogus") = some (.ok none) := by
  refine ⟨?_, by decide, by decide⟩
  intro j
  unfold from_golang_duration_opt
  cases h : from_golang_duration j with
  | none => simp
  | some val => cases val <;> simp

/-- C8: if every element of the array is decodable (it is an object whose
string `type` tag resolves and whose shape decoder succeeds), then
`dynamic_provisioner_list` succeeds with a sequence of the same length in
which the `i`-th output is exactly the decode of the `i`-th input. -/
theorem dynamic_provisioner_list_ok {P : ProvShapes} (d : ShapeDecoders P)
    (xs : List Json) (h : ∀ x ∈ xs, ∃ v, provisioner_item d x = .ok v) :
    ∃ ys, dynamic_provisioner_list d (.arr xs) = .ok ys ∧ ys.length = xs.length ∧
      ∀ (i : Nat) (h1 : i < xs.length) (h2 : i < ys.length),
        provisioner_item d (xs.get ⟨i, h1⟩) = .ok (ys.get ⟨i, h2⟩) :=
  provisioner_list_loop_ok d xs h

/-- C8 witness: the theorem at a concrete two-element array with known
tags `"JWK"` and `"ACME"`. -/
theorem dynamic_provisioner_list_ok_witness :
    ∃ ys, dynamic_provisioner_list unitDecoders (.arr [jwkObj, acmeObj]) = .ok ys ∧
      ys.length = ([jwkObj, acmeObj] : List Json).length ∧
      ∀ (i : Nat) (h1 : i < ([jwkObj, acmeObj] : List Json).length)
        (h2 : i < ys.length),
        provisioner_item unitDecoders (([jwkObj, acmeObj] : List Json).get ⟨i, h1⟩) =
          .ok (ys.get ⟨i, h2⟩) :=
  dynamic_provisioner_list_ok unitDecoders [jwkObj, acmeObj] (by
    intro x hx
    simp only [List.mem_cons, List.not_mem_nil, or_false] at hx
    rcases hx with rfl | rfl
    · exact ⟨_, rfl⟩
    · exact ⟨_, rfl⟩)

/-- C9: if the elements before some position all decode and that position
holds an object whose string tag is outside the closed set (so
`StepProvisionerType::from_str` fails), the whole decode aborts with the
`unknown_variant` error naming the offending tag and enumerating the nine
legal tags; being an `Except.error`, no partial sequence is returned. -/
theorem dynamic_provisioner_list_unknown_variant {P : ProvShapes}
    (d : ShapeDecoders P) (pre rest : List Json) (fs : List (String × Json))
    (t : String)
    (hpre : ∀ x ∈ pre, ∃ v, provisioner_item d x = .ok v)
    (htag : Json.index (.obj fs) "type" = .str t)
    (hunk : ∃ e, StepProvisionerType.from_str t = .error e) :
    dynamic_provisioner_list d (.arr (pre ++ Json.obj fs :: rest)) =
      .error (.unknownVariant t legalTags) :=
  provisioner_list_loop_unknown d fs t htag hunk pre rest hpre

/-- C9 witness: the theorem at a concrete array whose middle element
carries the unknown tag `"FOO"`. -/
theorem dynamic_provisioner_list_unknown_variant_witness :
    dynamic_provisioner_list unitDecoders
        (.arr ([jwkObj] ++ Json.obj [("type", Json.str "FOO")] :: [Json.null])) =
      .error (.unknownVariant "FOO" legalTags) :=
  dynamic_provisioner_list_unknown_variant unitDecoders [jwkObj] [Json.null]
    [("type", Json.str "FOO")] "FOO"
    (by
      intro x hx
      simp only [List.mem_cons, List.not_mem_nil, or_false] at hx
      rcases hx with rfl
      exact ⟨_, rfl⟩)
    rfl ⟨_, rfl⟩

/-- C10 counterexample: a poll step that starts a new fetch does not
always report `Pending`: from the initial state the source starts the
first fetch and polls it *in the same step*, so with a transport whose
future resolves on its first poll the very step that started the fetch
(log `[none]`) already yields an item. -/
theorem first_fetch_can_yield_in_same_step_cex :
    StepProvisionersAsyncPaginator.poll_next readyAFetch ⟨0, none, none⟩ =
      some (⟨0, some ⟨[5], ""⟩, none⟩, .ready (some (.ok 5)), [none]) := by
  decide

/-- C10 (amended): while a fetch is pending (not yet resolved), a poll
step polls only that future — no new fetch is started (empty fetch log)
and the step reports `Pending`; and the poll step that starts the
*next-page* fetch reports `Pending` without yielding an item.  Only the
first-fetch step may also consume its fetch and yield in the same step
(previous counterexample). -/
theorem single_outstanding_fetch {α ε : Type}
    (afetch : Option String → MockFuture α ε) :
    (∀ (t : StepProvisionersAsyncPaginator α ε) (f : MockFuture α ε) (k : Nat),
      t.current_pending_fetch = some f → f.consumed = false → f.pollsLeft = k + 1 →
      StepProvisionersAsyncPaginator.poll_next afetch t =
        some ({ t with current_pending_fetch := some { f with pollsLeft := k } },
          .pending, [])) ∧
    (∀ (t : StepProvisionersAsyncPaginator α ε) (pg : StepProvisionersResponseRaw α),
      t.current_pending_fetch = none → t.fetched_last = some pg →
      pg.provisioners ≠ [] → pg.provisioners.length ≤ t.cnt → pg.next_cursor ≠ "" →
      StepProvisionersAsyncPaginator.poll_next afetch t =
        some ({ t with cnt := 0, current_pending_fetch := some (afetch (some pg.next_cursor)) },
          .pending, [some pg.next_cursor])) := by
  constructor
  · intro t f k h1 h2 h3
    simp only [StepProvisionersAsyncPaginator.poll_next, h1, Option.isNone_some,
      Bool.false_and, Bool.false_eq_true, if_false, pollWithPending, pollFuture, h2,
      h3, Bool.false_eq_true, if_false]
  · intro t pg h1 h2 h3 h4 h5
    simp only [StepProvisionersAsyncPaginator.poll_next, h1, h2, Option.isNone_some,
      Option.isNone_none, Bool.true_and, Bool.false_eq_true, if_false, pollHeld]
    rw [if_neg (by simpa [List.isEmpty_iff] using h3)]
    rw [dif_pos h4, if_neg h5]
    simp

/-- C10 witness: both conjuncts of the amended statement at the concrete
five-poll transport. -/
theorem single_outstanding_fetch_witness :
    StepProvisionersAsyncPaginator.poll_next pendAFetch
        ⟨0, none, some ⟨5, .ok ⟨[], ""⟩, false⟩⟩ =
      some (⟨0, none, some ⟨4, .ok ⟨[], ""⟩, false⟩⟩, .pending, []) ∧
    StepProvisionersAsyncPaginator.poll_next pendAFetch
        ⟨3, some ⟨[1, 2, 3], "c9"⟩, none⟩ =
      some (⟨0, some ⟨[1, 2, 3], "c9"⟩, some ⟨5, .ok ⟨[], ""⟩, false⟩⟩,
        .pending, [some "c9"]) := by
  constructor
  · have h := (single_outstanding_fetch pendAFetch).1
      ⟨0, none, some ⟨5, .ok ⟨[], ""⟩, false⟩⟩ ⟨5, .ok ⟨[], ""⟩, false⟩ 4 rfl rfl rfl
    simpa using h
  · have h := (single_outstanding_fetch pendAFetch).2
      ⟨3, some ⟨[1, 2, 3], "c9"⟩, none⟩ ⟨[1, 2, 3], "c9"⟩ rfl rfl
      (by decide) (by decide) (by decide)
    simpa using h

end Tinystep
